import Mathlib

/-!
Verification development for the Play-Protect medical data simulator
(`backend/data_simulator.py` and `backend/scenarios.py`).

The Python code computes with IEEE floats; this embedding uses `ℚ` for all
state and analytics so every definition is executable, and uses `ℝ` only for
the one formula that calls the transcendental `math.exp` (the glucose meal
effect).  Python `round(x, n)` rounds half to even; the embedding uses
`round` (half away from zero on the positives).  No statement proved below
is evaluated at a tie, so the two conventions agree on everything stated.
Timestamps (`datetime.now().isoformat()`) carry no information used by any
property and are omitted from event records.
-/

namespace PlayProtect

/-- Clamp `x` to `[lo, hi]`, as the Python idiom `max(lo, min(hi, x))`. -/
def clampQ (lo hi x : ℚ) : ℚ := max lo (min hi x)

/-- Python `round(x, 0)` (result used as a number). -/
def round0 (x : ℚ) : ℚ := (round x : ℤ)

/-- Python `round(x, 1)`. -/
def round1 (x : ℚ) : ℚ := ((round (x * 10) : ℤ) : ℚ) / 10

/-- Python `round(x, 2)`. -/
def round2 (x : ℚ) : ℚ := ((round (x * 100) : ℤ) : ℚ) / 100

/-- Python `round(x, 3)`. -/
def round3 (x : ℚ) : ℚ := ((round (x * 1000) : ℤ) : ℚ) / 1000

/-- Python list slice `l[-n:]`: the last `n` elements (all of them when the
list is shorter). -/
def lastN (n : ℕ) (l : List ℚ) : List ℚ := l.drop (l.length - n)

/-- The list comprehension `[recent[i] - recent[i-1] for i in range(1, len(recent))]`. -/
def successiveDiffs : List ℚ → List ℚ
  | x :: y :: rest => (y - x) :: successiveDiffs (y :: rest)
  | _ => []

/-- `MedicalDataSimulator._calculate_trend`.  The `current` argument is part
of the Python signature but is never read. -/
def calculateTrend (history : List ℚ) (current : ℚ) : String :=
  if history.length < 3 then "stable"
  else
    let recent := lastN 5 history
    if recent.length < 3 then "stable"
    else
      let changes := successiveDiffs recent
      let avgChange := changes.sum / (changes.length : ℚ)
      if |avgChange| < 0.1 then "stable"
      else if avgChange > 0.3 then "rising"
      else if avgChange < -0.3 then "falling"
      else if |avgChange| > 0.2 then "volatile"
      else "stable"

/-- The average successive delta over the last five points, exactly as
`_calculate_trend` computes it internally (named separately so that
properties of the classification can be stated against it). -/
def trendAvgDelta (history : List ℚ) : ℚ :=
  let changes := successiveDiffs (lastN 5 history)
  changes.sum / (changes.length : ℚ)

/-- `MedicalDataSimulator._calculate_anomaly_score` with the range tuple
passed as two arguments. -/
def calculateAnomalyScore (value baseline lower upper : ℚ) : ℚ :=
  if lower ≤ value ∧ value ≤ upper then
    min (|value - baseline| / (upper - lower) * 0.5) 0.5
  else if value < lower then
    min (0.5 + (lower - value) / (baseline - lower) * 0.5) 1
  else
    min (0.5 + (value - upper) / (upper - baseline) * 0.5) 1

/-- The within-range branch of `_calculate_anomaly_score` as a standalone
function (for boundary-behaviour statements). -/
def anomalyWithinBranch (value baseline lower upper : ℚ) : ℚ :=
  min (|value - baseline| / (upper - lower) * 0.5) 0.5

/-- The below-range branch of `_calculate_anomaly_score` as a standalone
function; it is affine in `value`, so its limit at `value = lower` is its
value there. -/
def anomalyBelowBranch (value baseline lower upper : ℚ) : ℚ :=
  min (0.5 + (lower - value) / (baseline - lower) * 0.5) 1

/-- The above-range branch of `_calculate_anomaly_score` as a standalone
function. -/
def anomalyAboveBranch (value baseline lower upper : ℚ) : ℚ :=
  min (0.5 + (value - upper) / (upper - baseline) * 0.5) 1

/-- `MedicalDataSimulator._calculate_health_score`, with the five `self`
fields it reads passed as arguments. -/
def calculateHealthScore (glucose heartRate mood activity stress : ℚ) : ℚ :=
  let score : ℚ := 100
  let glucoseScore : ℚ :=
    if 4 ≤ glucose ∧ glucose ≤ 7 then 100
    else if (3.5 ≤ glucose ∧ glucose < 4) ∨ (7 < glucose ∧ glucose ≤ 9) then 70
    else if (3 ≤ glucose ∧ glucose < 3.5) ∨ (9 < glucose ∧ glucose ≤ 11) then 40
    else 10
  let score := score * 0.4 + glucoseScore * 0.4
  let hrScore : ℚ :=
    if 70 ≤ heartRate ∧ heartRate ≤ 110 then 100
    else if (60 ≤ heartRate ∧ heartRate < 70) ∨ (110 < heartRate ∧ heartRate ≤ 120) then 80
    else 50
  let score := score * 0.6 + hrScore * 0.2
  let moodScore := mood * 100
  let score := score * 0.8 + moodScore * 0.2
  let activityScore := min (activity * 100) 100
  let score := score * 0.9 + activityScore * 0.1
  let stressPenalty := stress * 20
  let score := max 0 (score - stressPenalty)
  round1 score

/-- The sequential blend exactly as the specification documents it stage by
stage: the glucose tier blended at 40 percent into the running score started
at 100, then the heart-rate tier at 20 percent, then mood at 20 percent,
then activity at 10 percent, then the stress penalty subtracted and the
result floored at 0 (and rounded to one decimal as the code reports it).
Written independently of `calculateHealthScore` so the two can be compared. -/
def specSequentialBlend (glucose heartRate mood activity stress : ℚ) : ℚ :=
  let glucoseTier : ℚ :=
    if 4 ≤ glucose ∧ glucose ≤ 7 then 100
    else if (3.5 ≤ glucose ∧ glucose < 4) ∨ (7 < glucose ∧ glucose ≤ 9) then 70
    else if (3 ≤ glucose ∧ glucose < 3.5) ∨ (9 < glucose ∧ glucose ≤ 11) then 40
    else 10
  let hrTier : ℚ :=
    if 70 ≤ heartRate ∧ heartRate ≤ 110 then 100
    else if (60 ≤ heartRate ∧ heartRate < 70) ∨ (110 < heartRate ∧ heartRate ≤ 120) then 80
    else 50
  let s1 := 100 * 0.4 + glucoseTier * 0.4
  let s2 := s1 * 0.6 + hrTier * 0.2
  let s3 := s2 * 0.8 + mood * 100 * 0.2
  let s4 := s3 * 0.9 + min (activity * 100) 100 * 0.1
  round1 (max 0 (s4 - stress * 20))

/-- `MedicalDataSimulator._get_time_of_day_factor` with the wall-clock hour
passed as an argument. -/
def timeOfDayFactor (hour : ℕ) : ℚ :=
  if 8 ≤ hour ∧ hour ≤ 9 then 1.3
  else if 12 ≤ hour ∧ hour ≤ 13 then 1.4
  else if 18 ≤ hour ∧ hour ≤ 19 then 1.3
  else if 2 ≤ hour ∧ hour ≤ 6 then 1.2
  else 1

/-- The medication effect in `generate_glucose_event`: `-0.3` while fewer
than two hours have passed since the last dose, `0` afterwards. -/
noncomputable def medicationEffectR (hoursSinceMed : ℝ) : ℝ :=
  if hoursSinceMed < 2 then -0.3 else 0

/-- The meal effect in `generate_glucose_event`:
`1.5 * math.exp(-time_since_meal / 2)` while fewer than four hours have
passed since the last meal, `0` afterwards. -/
noncomputable def mealEffectR (hoursSinceMeal : ℝ) : ℝ :=
  if hoursSinceMeal < 4 then 1.5 * Real.exp (-hoursSinceMeal / 2) else 0

/-- The glucose change computed by `generate_glucose_event`:
`(base_change + activity_effect + medication_effect + meal_effect) * time_factor`. -/
noncomputable def glucoseChangeR (hour : ℕ) (noise activity hoursSinceMed hoursSinceMeal : ℝ) : ℝ :=
  (noise + -activity * 0.5 + medicationEffectR hoursSinceMed + mealEffectR hoursSinceMeal) *
    ((timeOfDayFactor hour : ℚ) : ℝ)

/-- The glucose change as the claim words it, with the time-of-day factor
scaling only the random-noise term.  Stated for comparison with
`glucoseChangeR`. -/
noncomputable def glucoseChangeClaimedR (hour : ℕ) (noise activity hoursSinceMed hoursSinceMeal : ℝ) : ℝ :=
  ((timeOfDayFactor hour : ℚ) : ℝ) * noise + -activity * 0.5 +
    medicationEffectR hoursSinceMed + mealEffectR hoursSinceMeal

/-- The glucose value after `generate_glucose_event` applies the change and
clamps: `max(2.5, min(18.0, glucose + change))`. -/
noncomputable def glucoseUpdateR (glucose : ℝ) (hour : ℕ) (noise activity hoursSinceMed hoursSinceMeal : ℝ) : ℝ :=
  max 2.5 (min 18 (glucose + glucoseChangeR hour noise activity hoursSinceMed hoursSinceMeal))

/-- The `sleep_state` string field of the simulator. -/
inductive SleepState
  | awake
  | lightSleep
  | deepSleep
deriving DecidableEq

/-- The `HealthEvent` dataclass.  The free-form `metadata` dict duplicates
values already present in the event or in the simulator state and is read by
no property below, so it is omitted here; the timestamp is likewise omitted. -/
structure HealthEvent where
  eventType : String
  value : ℚ
  unit : String
  urgency : String
  safetyStatus : Option String
  llmReasoning : Option String
  trend : Option String
  anomalyScore : Option ℚ
  correlationTags : List String
  healthScore : Option ℚ
deriving DecidableEq

/-- The `self.stats` counter dictionary (`last_anomaly_time`, a timestamp,
is omitted). -/
structure Stats where
  totalEvents : ℕ
  dangerEvents : ℕ
  monitorEvents : ℕ
  safeEvents : ℕ
  anomaliesDetected : ℕ
deriving DecidableEq

/-- The mutable simulator state of `MedicalDataSimulator`.  The
`last_medication_time` and `last_meal_time` timestamps are not stored here;
the elapsed hours derived from them (and from `datetime.now()`) enter each
generator as explicit inputs. -/
structure SimState where
  currentGlucose : ℚ
  currentHeartRate : ℚ
  currentMood : ℚ
  currentActivity : ℚ
  currentSpo2 : ℚ
  currentRespiratoryRate : ℚ
  currentHydration : ℚ
  currentStress : ℚ
  asthmaRiskLevel : ℚ
  sleepState : SleepState
  glucoseHistory : List ℚ
  heartRateHistory : List ℚ
  eventHistory : List HealthEvent
  stats : Stats
  envAirQuality : ℚ
  envPollenCount : ℚ
  envHumidity : ℚ

/-- The state built by `MedicalDataSimulator.__init__` for the default
profile (7-year-old with Type 1 Diabetes). -/
def initialSimState : SimState :=
  { currentGlucose := 5.5
    currentHeartRate := 90
    currentMood := 0.7
    currentActivity := 0.5
    currentSpo2 := 98
    currentRespiratoryRate := 22
    currentHydration := 0.75
    currentStress := 0.3
    asthmaRiskLevel := 0.2
    sleepState := SleepState.awake
    glucoseHistory := []
    heartRateHistory := []
    eventHistory := []
    stats := { totalEvents := 0, dangerEvents := 0, monitorEvents := 0,
               safeEvents := 0, anomaliesDetected := 0 }
    envAirQuality := 0.8
    envPollenCount := 0.3
    envHumidity := 0.5 }

/-- Append to a `collections.deque(maxlen := cap)`: the new element goes on
the right and the oldest elements are dropped from the left once the
capacity is exceeded. -/
def appendCapped {α : Type} (cap : ℕ) (x : α) (l : List α) : List α :=
  let l2 := l ++ [x]
  l2.drop (l2.length - cap)

/-- The inputs of one `generate_glucose_event` call that the Python code
draws from `random`, the wall clock and the meal/medication timers.
`mealEffectSample` is the value of `1.5 * math.exp(-time_since_meal / 2)`;
the transcendental is sampled as an input so the state machine stays in `ℚ`
(its exact real form is `mealEffectR`, proved about separately). -/
structure GlucoseInputs where
  noise : ℚ
  hour : ℕ
  hoursSinceMed : ℚ
  hoursSinceMeal : ℚ
  mealEffectSample : ℚ

/-- One call to one of the seven per-channel event generators, together with
the random draws and clock readings that call consumes. -/
inductive StepInput
  | glucose (inp : GlucoseInputs)
  | heartRate (change : ℚ)
  | mood (noise : ℚ)
  | medicationDue (hoursSinceMed : ℚ)
  | asthmaRisk (riskNoise respUp respDown : ℚ)
  | oxygenSaturation (noise : ℚ)
  | activity (hour : ℕ) (change sleepDraw wakeDraw : ℚ)

/-- `_calculate_health_score` read off the current state fields. -/
def healthScoreOf (s : SimState) : ℚ :=
  calculateHealthScore s.currentGlucose s.currentHeartRate s.currentMood
    s.currentActivity s.currentStress

/-- `MedicalDataSimulator.generate_glucose_event`. -/
def generateGlucoseEvent (inp : GlucoseInputs) (s : SimState) : SimState × HealthEvent :=
  let activityEffect := -s.currentActivity * 0.5
  let medicationEffect := if inp.hoursSinceMed < 2 then (-0.3 : ℚ) else 0
  let mealEffect := if inp.hoursSinceMeal < 4 then inp.mealEffectSample else 0
  let change := (inp.noise + activityEffect + medicationEffect + mealEffect) *
    timeOfDayFactor inp.hour
  let g := clampQ 2.5 18 (s.currentGlucose + change)
  let history := appendCapped 20 g s.glucoseHistory
  let trend := calculateTrend history g
  let anomalyScore := calculateAnomalyScore g 5.5 4 7
  let typeUrgency : String × String :=
    if g < 3.5 then ("glucose_drop", "critical")
    else if g < 4 then ("glucose_drop", "high")
    else if g > 14 then ("glucose_spike", "critical")
    else if g > 11 then ("glucose_spike", "high")
    else if g > 9 then ("glucose_spike", "medium")
    else ("glucose_normal", "low")
  let correlations :=
    (if s.currentHeartRate > 110 then ["elevated_heart_rate"] else []) ++
    (if s.currentMood < 0.4 then ["low_mood"] else []) ++
    (if s.currentActivity > 0.7 then ["high_activity"] else [])
  let s2 := { s with currentGlucose := g, glucoseHistory := history }
  (s2,
    { eventType := typeUrgency.1
      value := round2 g
      unit := "mmol/L"
      urgency := typeUrgency.2
      safetyStatus := none
      llmReasoning := none
      trend := some trend
      anomalyScore := some (round3 anomalyScore)
      correlationTags := correlations
      healthScore := some (healthScoreOf s2) })

/-- `MedicalDataSimulator.generate_heart_rate_event`.  Note that the code
never appends to `heart_rate_history`. -/
def generateHeartRateEvent (change : ℚ) (s : SimState) : SimState × HealthEvent :=
  let hr := clampQ 60 140 (s.currentHeartRate + change)
  let typeUrgency : String × String :=
    if hr > 120 then ("heart_rate_elevated", "medium")
    else if hr < 70 then ("heart_rate_low", "medium")
    else ("heart_rate_elevated", "low")
  let s2 := { s with currentHeartRate := hr }
  (s2,
    { eventType := typeUrgency.1
      value := round0 hr
      unit := "bpm"
      urgency := typeUrgency.2
      safetyStatus := none
      llmReasoning := none
      trend := none
      anomalyScore := none
      correlationTags := []
      healthScore := none })

/-- `MedicalDataSimulator.generate_mood_event`. -/
def generateMoodEvent (noise : ℚ) (s : SimState) : SimState × HealthEvent :=
  let glucoseEffect : ℚ :=
    if s.currentGlucose < 3.5 then -0.5
    else if s.currentGlucose < 4 then -0.3
    else if s.currentGlucose > 11 then -0.2
    else 0
  let activityEffect := s.currentActivity * 0.2
  let stressEffect := -s.currentStress * 0.3
  let sleepEffect : ℚ :=
    if s.sleepState = SleepState.deepSleep then 0.2
    else if s.sleepState = SleepState.lightSleep then -0.1
    else 0
  let moodChange := noise + glucoseEffect + activityEffect + stressEffect + sleepEffect
  let mood := clampQ 0 1 (s.currentMood + moodChange)
  let urgency : String := if mood < 0.2 then "high" else if mood < 0.3 then "medium" else "low"
  let correlations :=
    (if s.currentGlucose < 4 then ["hypoglycemia_symptom"] else []) ++
    (if s.currentStress > 0.7 then ["high_stress"] else [])
  let s2 := { s with currentMood := mood }
  (s2,
    { eventType := "mood_indicator"
      value := round2 mood
      unit := "normalized_score"
      urgency := urgency
      safetyStatus := none
      llmReasoning := none
      trend := some "stable"
      anomalyScore := some (if mood < 0.4 then round3 (1 - mood) else 0.2)
      correlationTags := correlations
      healthScore := some (healthScoreOf s2) })

/-- `MedicalDataSimulator.generate_medication_event`; it reads the state but
mutates nothing. -/
def generateMedicationEvent (hoursSince : ℚ) (s : SimState) : SimState × HealthEvent :=
  let baseUrgency : String :=
    if hoursSince > 5 then "high" else if hoursSince > 4 then "medium" else "low"
  let urgency : String :=
    if s.currentGlucose > 11 then (if baseUrgency = "high" then "critical" else "high")
    else if s.currentGlucose > 9 then (if baseUrgency = "medium" then "high" else baseUrgency)
    else baseUrgency
  let correlations := if s.currentGlucose > 9 then ["hyperglycemia_present"] else []
  (s,
    { eventType := "medication_due"
      value := round2 hoursSince
      unit := "hours_since_last_dose"
      urgency := urgency
      safetyStatus := none
      llmReasoning := none
      trend := some "stable"
      anomalyScore := some (if hoursSince > 5 then 0.3 else 0.1)
      correlationTags := correlations
      healthScore := some (healthScoreOf s) })

/-- `MedicalDataSimulator.generate_asthma_risk_event`. -/
def generateAsthmaRiskEvent (riskNoise respUp respDown : ℚ) (s : SimState) :
    SimState × HealthEvent :=
  let pollenEffect := s.envPollenCount * 0.4
  let airQualityEffect := (1 - s.envAirQuality) * 0.3
  let activityEffect := s.currentActivity * 0.2
  let riskChange := riskNoise + pollenEffect + airQualityEffect + activityEffect
  let risk := clampQ 0 1 (s.asthmaRiskLevel + riskChange)
  let respRaw :=
    if risk > 0.6 then s.currentRespiratoryRate + respUp
    else if risk < 0.3 then s.currentRespiratoryRate + respDown
    else s.currentRespiratoryRate
  let resp := clampQ 18 35 respRaw
  let urgency : String := if risk > 0.7 then "high" else if risk > 0.5 then "medium" else "low"
  let correlations :=
    (if s.envPollenCount > 0.6 then ["high_pollen"] else []) ++
    (if s.envAirQuality < 0.5 then ["poor_air_quality"] else []) ++
    (if resp > 28 then ["elevated_respiratory_rate"] else [])
  let s2 := { s with asthmaRiskLevel := risk, currentRespiratoryRate := resp }
  (s2,
    { eventType := "asthma_risk"
      value := round2 risk
      unit := "risk_score"
      urgency := urgency
      safetyStatus := none
      llmReasoning := none
      trend := some (if riskChange > 0.1 then "rising"
        else if riskChange < -0.1 then "falling" else "stable")
      anomalyScore := some (round3 risk)
      correlationTags := correlations
      healthScore := some (healthScoreOf s2) })

/-- `MedicalDataSimulator.generate_oxygen_saturation_event`. -/
def generateOxygenSaturationEvent (noise : ℚ) (s : SimState) : SimState × HealthEvent :=
  let activityEffect := -s.currentActivity * 0.5
  let respiratoryEffect := -(s.currentRespiratoryRate - 22) * 0.1
  let spo2 := clampQ 92 100 (s.currentSpo2 + (noise + activityEffect + respiratoryEffect))
  let urgency : String := if spo2 < 95 then "high" else if spo2 < 97 then "medium" else "low"
  let correlations :=
    (if s.currentRespiratoryRate > 28 then ["elevated_respiratory_rate"] else []) ++
    (if s.asthmaRiskLevel > 0.6 then ["asthma_risk"] else [])
  let s2 := { s with currentSpo2 := spo2 }
  (s2,
    { eventType := "oxygen_saturation"
      value := round1 spo2
      unit := "%"
      urgency := urgency
      safetyStatus := none
      llmReasoning := none
      trend := some "stable"
      anomalyScore := some (if spo2 < 97 then round3 ((97 - spo2) / 5) else 0.1)
      correlationTags := correlations
      healthScore := some (healthScoreOf s2) })

/-- The `activity_base` value chosen by the hour-of-day ladder in
`generate_activity_event` (branches in source order; hour 22 hits the
evening wind-down branch before the sleep window). -/
def activityBaseOf (hour : ℕ) : ℚ :=
  if (7 ≤ hour ∧ hour ≤ 8) ∨ (15 ≤ hour ∧ hour ≤ 17) then 0.7
  else if 12 ≤ hour ∧ hour ≤ 13 then 0.4
  else if 20 ≤ hour ∧ hour ≤ 22 then 0.3
  else if 22 ≤ hour ∨ hour ≤ 6 then 0.1
  else 0.5

/-- The `sleep_state` assignment in the same ladder: only the sleep-window
branch (`22 <= hour or hour <= 6`, not shadowed by an earlier branch)
rewrites the sleep state from the random draw. -/
def sleepStateAfterWindow (hour : ℕ) (sleepDraw : ℚ) (prev : SleepState) : SleepState :=
  if (7 ≤ hour ∧ hour ≤ 8) ∨ (15 ≤ hour ∧ hour ≤ 17) then prev
  else if 12 ≤ hour ∧ hour ≤ 13 then prev
  else if 20 ≤ hour ∧ hour ≤ 22 then prev
  else if 22 ≤ hour ∨ hour ≤ 6 then
    (if sleepDraw > 0.3 then SleepState.deepSleep else SleepState.lightSleep)
  else prev

/-- `MedicalDataSimulator.generate_activity_event`.  Note the cross-channel
mutation: when the final activity exceeds 0.8 and glucose exceeds 5.0, the
glucose is decremented by 0.3 with no clamp applied. -/
def generateActivityEvent (hour : ℕ) (change sleepDraw wakeDraw : ℚ) (s : SimState) :
    SimState × HealthEvent :=
  let sleepState1 := sleepStateAfterWindow hour sleepDraw s.sleepState
  let activity1 := clampQ 0 1 (activityBaseOf hour + change)
  let activity2 := if sleepState1 ≠ SleepState.awake then (0.1 : ℚ) else activity1
  let sleepState2 :=
    if sleepState1 ≠ SleepState.awake then
      (if wakeDraw > 0.7 then SleepState.awake else sleepState1)
    else sleepState1
  let glucose2 :=
    if activity2 > 0.8 then
      (if s.currentGlucose > 5 then s.currentGlucose - 0.3 else s.currentGlucose)
    else s.currentGlucose
  let correlations : List String := if activity2 > 0.8 then ["high_activity"] else []
  let s2 := { s with currentActivity := activity2, sleepState := sleepState2,
                     currentGlucose := glucose2 }
  (s2,
    { eventType := "activity_level"
      value := round2 activity2
      unit := "normalized_score"
      urgency := "low"
      safetyStatus := none
      llmReasoning := none
      trend := some "stable"
      anomalyScore := some 0.1
      correlationTags := correlations
      healthScore := some (healthScoreOf s2) })

/-- Dispatch one generator call. -/
def generateEvent : StepInput → SimState → SimState × HealthEvent
  | StepInput.glucose inp, s => generateGlucoseEvent inp s
  | StepInput.heartRate change, s => generateHeartRateEvent change s
  | StepInput.mood noise, s => generateMoodEvent noise s
  | StepInput.medicationDue h, s => generateMedicationEvent h s
  | StepInput.asthmaRisk a b c, s => generateAsthmaRiskEvent a b c s
  | StepInput.oxygenSaturation n, s => generateOxygenSaturationEvent n s
  | StepInput.activity hour c sd wd, s => generateActivityEvent hour c sd wd s

/-- The state after one generator call. -/
def applyGenerator (i : StepInput) (s : SimState) : SimState := (generateEvent i s).1

/-- The state after a sequence of generator calls. -/
def runGenerators (steps : List StepInput) (s : SimState) : SimState :=
  steps.foldl (fun st i => applyGenerator i st) s

/-- The safety-status counter update shared by `generate_random_event`,
`generate_and_analyze_event` and `run_scenario`: bump the DANGER, MONITOR or
(by default) SAFE counter. -/
def tallySafety (stats : Stats) (status : Option String) : Stats :=
  if status = some "DANGER" then { stats with dangerEvents := stats.dangerEvents + 1 }
  else if status = some "MONITOR" then { stats with monitorEvents := stats.monitorEvents + 1 }
  else { stats with safeEvents := stats.safeEvents + 1 }

/-- The anomaly-counter update in `generate_random_event`.  Python tests
`event.anomaly_score and event.anomaly_score > 0.7`; a `None` or `0.0` score
is falsy, and a falsy `0.0` also fails `> 0.7`, so the test is equivalent to
the comparison alone. -/
def bumpAnomalies (score : Option ℚ) (stats : Stats) : Stats :=
  match score with
  | some a => if a > 0.7 then { stats with anomaliesDetected := stats.anomaliesDetected + 1 }
    else stats
  | none => stats

/-- `MedicalDataSimulator.generate_random_event` after the weighted channel
choice (the chosen channel and its draws arrive as the `StepInput`): run the
generator, bump `total_events`, tally the (still unclassified) event's
safety status, bump the anomaly counter, and append the event to the rolling
event history. -/
def generateRandomEvent (i : StepInput) (s : SimState) : SimState × HealthEvent :=
  let se := generateEvent i s
  let stats1 := { se.1.stats with totalEvents := se.1.stats.totalEvents + 1 }
  let stats2 := tallySafety stats1 se.2.safetyStatus
  let stats3 := bumpAnomalies se.2.anomalyScore stats2
  ({ se.1 with stats := stats3, eventHistory := appendCapped 50 se.2 se.1.eventHistory }, se.2)

/-- `MedicalDataSimulator._update_environment`.  The pollen formula
`0.3 + 0.4 * sin((hour - 6) * pi / 12) + noise` contains a transcendental,
so its value arrives as the input `pollenSample`; the air-quality update
keeps its affine form. -/
def updateEnvironment (pollenSample airNoise : ℚ) (s : SimState) : SimState :=
  { s with envPollenCount := clampQ 0 1 pollenSample,
           envAirQuality := clampQ 0 1 (0.7 + airNoise) }

/-- The `SafetyStatus` enum. -/
inductive SafetyStatus
  | SAFE
  | DANGER
  | MONITOR
deriving DecidableEq

/-- The `.value` string of a `SafetyStatus` member. -/
def SafetyStatus.toStr : SafetyStatus → String
  | SafetyStatus.SAFE => "SAFE"
  | SafetyStatus.DANGER => "DANGER"
  | SafetyStatus.MONITOR => "MONITOR"

/-- `MedicalDataSimulator._rule_based_analysis`. -/
def ruleBasedAnalysis (event : HealthEvent) : SafetyStatus × String :=
  if event.eventType = "glucose_drop" then
    if event.value < 3.5 then
      (SafetyStatus.DANGER, "Critical hypoglycemia detected - immediate intervention required")
    else if event.value < 4 then
      (SafetyStatus.DANGER, "Low blood glucose - intervention needed")
    else (SafetyStatus.MONITOR, "Glucose trending low - monitor closely")
  else if event.eventType = "glucose_spike" then
    if event.value > 14 then
      (SafetyStatus.DANGER, "Severe hyperglycemia - medical attention needed")
    else if event.value > 11 then
      (SafetyStatus.MONITOR, "Elevated blood glucose - monitor and consider insulin")
    else (SafetyStatus.SAFE, "Slightly elevated glucose - within acceptable range")
  else if event.eventType = "heart_rate_elevated" then
    if event.value > 130 then
      (SafetyStatus.MONITOR, "Elevated heart rate - may indicate stress or medical event")
    else (SafetyStatus.SAFE, "Heart rate within normal range")
  else if event.eventType = "mood_indicator" then
    if event.value < 0.3 then
      (SafetyStatus.MONITOR, "Low mood detected - may indicate hypoglycemia or fatigue")
    else (SafetyStatus.SAFE, "Mood indicators normal")
  else if event.urgency = "critical" then
    (SafetyStatus.DANGER, "Critical event detected - immediate attention required")
  else if event.urgency = "high" then
    (SafetyStatus.MONITOR, "High urgency event - monitor closely")
  else (SafetyStatus.SAFE, "Event within normal parameters")

/-- What the body of a 200 response parses to: unparseable JSON, JSON whose
`status` key is missing or not a `SafetyStatus` name (Python raises
`KeyError`/`ValueError`, both caught), or a valid status with an optional
`reasoning` string. -/
inductive LlmContent
  | unparseable
  | missingOrInvalidStatus
  | valid (status : SafetyStatus) (reasoning : Option String)

/-- The outcome of the `aiohttp` POST in `analyze_with_llm`: either some
exception was raised (timeout, connection error, missing session, ...) or a
response with an HTTP status code and a body arrived. -/
inductive LlmCallResult
  | exception
  | response (httpStatus : ℕ) (content : LlmContent)

/-- `MedicalDataSimulator.analyze_with_llm` as a function of the simulator's
API-key presence and the network outcome; it is total, mirroring that the
Python function catches every exception. -/
def analyzeWithLlm (hasApiKey : Bool) (callResult : LlmCallResult) (event : HealthEvent) :
    SafetyStatus × String :=
  if hasApiKey then
    match callResult with
    | LlmCallResult.exception => ruleBasedAnalysis event
    | LlmCallResult.response code content =>
      if code = 200 then
        match content with
        | LlmContent.valid status reasoning => (status, reasoning.getD "No reasoning provided")
        | _ => ruleBasedAnalysis event
      else ruleBasedAnalysis event
  else ruleBasedAnalysis event

/-- The external inputs of one `generate_and_analyze_event` call. -/
structure PipelineInput where
  pollenSample : ℚ
  airNoise : ℚ
  step : StepInput
  hasApiKey : Bool
  llmResult : LlmCallResult

/-- `MedicalDataSimulator.generate_and_analyze_event`: update the
environment, generate a random event, classify it, write the classification
into the event, and tally the safety status a second time. -/
def generateAndAnalyzeEvent (p : PipelineInput) (s : SimState) : SimState × HealthEvent :=
  let s0 := updateEnvironment p.pollenSample p.airNoise s
  let se := generateRandomEvent p.step s0
  let analysis := analyzeWithLlm p.hasApiKey p.llmResult se.2
  let event2 := { se.2 with safetyStatus := some analysis.1.toStr,
                            llmReasoning := some analysis.2 }
  ({ se.1 with stats := tallySafety se.1.stats (some analysis.1.toStr) }, event2)

/-- The state after a sequence of `generate_and_analyze_event` calls. -/
def runPipeline (steps : List PipelineInput) (s : SimState) : SimState :=
  steps.foldl (fun st p => (generateAndAnalyzeEvent p st).1) s

/-- The documented hard clamp ranges of every mutated current value, plus
the fixed capacities of the three rolling histories. -/
def stateInvariant (s : SimState) : Prop :=
  2.5 ≤ s.currentGlucose ∧ s.currentGlucose ≤ 18 ∧
  60 ≤ s.currentHeartRate ∧ s.currentHeartRate ≤ 140 ∧
  0 ≤ s.currentMood ∧ s.currentMood ≤ 1 ∧
  0 ≤ s.currentActivity ∧ s.currentActivity ≤ 1 ∧
  92 ≤ s.currentSpo2 ∧ s.currentSpo2 ≤ 100 ∧
  0 ≤ s.asthmaRiskLevel ∧ s.asthmaRiskLevel ≤ 1 ∧
  18 ≤ s.currentRespiratoryRate ∧ s.currentRespiratoryRate ≤ 35 ∧
  s.glucoseHistory.length ≤ 20 ∧
  s.heartRateHistory.length ≤ 20 ∧
  s.eventHistory.length ≤ 50

/-- A metadata value in a scenario event dict (string, number or boolean). -/
inductive MetaValue
  | str (s : String)
  | num (q : ℚ)
  | flag (b : Bool)
deriving DecidableEq

/-- The event dict built by `scenarios._create_event` (timestamp omitted as
above). -/
structure ScenarioEvent where
  eventType : String
  value : ℚ
  unit : String
  urgency : String
  safetyStatus : String
  healthScore : ℚ
  metadata : List (String × MetaValue)
  trend : String
  anomalyScore : ℚ
  llmReasoning : String
  correlationTags : List String
deriving DecidableEq

/-- `scenarios._create_event` (arguments in source order; the Python default
arguments are always passed explicitly at the call sites below). -/
def createEvent (eventType : String) (value : ℚ) (unit urgency safetyStatus : String)
    (healthScore : ℚ) (metadata : List (String × MetaValue)) (trend : String)
    (anomalyScore : ℚ) (reasoning : String) (correlations : List String) : ScenarioEvent :=
  { eventType := eventType
    value := round2 value
    unit := unit
    urgency := urgency
    safetyStatus := safetyStatus
    healthScore := round1 healthScore
    metadata := metadata
    trend := trend
    anomalyScore := round3 anomalyScore
    llmReasoning := reasoning
    correlationTags := correlations }

/-- The child profile dict handed to scenario generators
(`MedicalDataSimulator.get_profile_dict`). -/
structure ChildProfile where
  id : Option String
  age : ℕ
  condition : String
  baselineGlucose : ℚ
  baselineHeartRate : ℚ
  baselineSpo2 : ℚ

/-- The default profile (`__init__` without a stored child). -/
def defaultProfile : ChildProfile :=
  { id := none, age := 7, condition := "diabetes", baselineGlucose := 5.5,
    baselineHeartRate := 90, baselineSpo2 := 98 }

/-- Phase 1 of `generate_hypoglycemia_episode`: the initial drop below the
baseline. -/
def hypoInitialDropEvent (glucose : ℚ) : ScenarioEvent :=
  createEvent "glucose_drop" glucose "mmol/L" "medium" "MONITOR" 65
    [("phase", MetaValue.str "initial_drop"), ("device", MetaValue.str "cgm")]
    "falling" 0.4 "Glucose trending downward. Monitor for hypoglycemia symptoms."
    ["trending_low"]

/-- One critical-low glucose event of phase 2 of
`generate_hypoglycemia_episode` (loop index `i`; the glucose value is drawn
uniformly from [3.2, 3.8]). -/
def hypoCriticalGlucoseEvent (glucose : ℚ) (i : ℕ) : ScenarioEvent :=
  createEvent "glucose_drop" glucose "mmol/L" "critical" "DANGER" 35
    [("phase", MetaValue.str "critical"), ("requires_intervention", MetaValue.flag true)]
    (if i = 0 then "falling" else "stable") 0.85
    "Critical hypoglycemia detected. Immediate intervention needed - provide fast-acting glucose."
    ["hypoglycemia", "low_mood", "fatigue"]

/-- The mood event accompanying each critical-low step of phase 2. -/
def hypoMoodEvent (mood : ℚ) : ScenarioEvent :=
  createEvent "mood_indicator" mood "normalized_score" "high" "MONITOR" 40
    [("context", MetaValue.str "hypoglycemia_effect")] "stable" 0.1
    "Low mood likely caused by hypoglycemia. Child may feel shaky, confused, or irritable."
    ["hypoglycemia_symptom"]

/-- Phase 3 of `generate_hypoglycemia_episode`: the recovery event. -/
def hypoRecoveryEvent (glucose : ℚ) : ScenarioEvent :=
  createEvent "glucose_normal" glucose "mmol/L" "low" "SAFE" 75
    [("phase", MetaValue.str "recovery")] "rising" 0.2
    "Glucose recovering to normal range after treatment." ["recovering"]

/-- The `for i in range(num_events - 3)` loop of phase 2; iteration `k`
consumes the draws `d (1 + 2 * k)` (glucose) and `d (2 + 2 * k)` (mood),
matching the order of the `random.uniform` calls. -/
def hypoCriticalPhase (d : ℕ → ℚ) : ℕ → List ScenarioEvent
  | 0 => []
  | k + 1 => hypoCriticalPhase d k ++
      [hypoCriticalGlucoseEvent (d (1 + 2 * k)) k, hypoMoodEvent (d (2 + 2 * k))]

/-- `scenarios.generate_hypoglycemia_episode`, with the stream of
`random.uniform` draws passed as `d` (indexed in call order: `d 0` is the
initial uniform(0.5, 1.0) draw, then two draws per critical step, then the
uniform(4.5, 5.5) recovery draw).  `num_events` is an `int`; Python
`range(num_events - 3)` is empty when `num_events < 3`, matching `toNat`. -/
def generateHypoglycemiaEpisode (profile : ChildProfile) (numEvents : ℤ) (d : ℕ → ℚ) :
    List ScenarioEvent :=
  let loopCount := (numEvents - 3).toNat
  hypoInitialDropEvent (profile.baselineGlucose - d 0) ::
    (hypoCriticalPhase d loopCount ++ [hypoRecoveryEvent (d (1 + 2 * loopCount))])

/-- The `ScenarioCategory` enum. -/
inductive ScenarioCategory
  | episode
  | fullDay
deriving DecidableEq

/-- The `ScenarioDefinition` dataclass. -/
structure ScenarioDefinition where
  id : String
  name : String
  description : String
  category : ScenarioCategory
  durationMinutes : ℕ
  applicableConditions : List String
  generateEvents : ChildProfile → ℤ → (ℕ → ℚ) → List ScenarioEvent

/-- The source registers eight further scenario routines
(`generate_hyperglycemia_spike`, `generate_asthma_trigger`,
`generate_anxiety_episode`, `generate_healthy_reading`,
`generate_healthy_school_day`, `generate_sick_day`,
`generate_active_play_day`, `generate_stressful_test_day`).  No claim reads
the events they produce, only their registry metadata (id, category,
duration, conditions), so their bodies are not embedded and this stand-in
yields no events. -/
def unmodeledRoutine : ChildProfile → ℤ → (ℕ → ℚ) → List ScenarioEvent := fun _ _ _ => []

/-- The `SCENARIOS` registry, in source order (a Python dict preserves
insertion order, so lookup and listing see this order). -/
def SCENARIOS : List ScenarioDefinition :=
  [ { id := "hypoglycemia_episode", name := "Hypoglycemia Episode",
      description := "Low blood sugar episode with mood changes and recovery",
      category := ScenarioCategory.episode, durationMinutes := 10,
      applicableConditions := ["diabetes", "both"],
      generateEvents := generateHypoglycemiaEpisode },
    { id := "hyperglycemia_spike", name := "Post-Meal Glucose Spike",
      description := "Blood sugar spike after eating, then gradual decline",
      category := ScenarioCategory.episode, durationMinutes := 15,
      applicableConditions := ["diabetes", "both"],
      generateEvents := unmodeledRoutine },
    { id := "asthma_trigger", name := "Asthma Trigger Event",
      description := "Environmental trigger causing asthma symptoms",
      category := ScenarioCategory.episode, durationMinutes := 10,
      applicableConditions := ["asthma", "both"],
      generateEvents := unmodeledRoutine },
    { id := "anxiety_episode", name := "Anxiety/Stress Episode",
      description := "Elevated stress with heart rate and mood changes",
      category := ScenarioCategory.episode, durationMinutes := 8,
      applicableConditions := ["diabetes", "asthma", "both"],
      generateEvents := unmodeledRoutine },
    { id := "healthy_reading", name := "Healthy Readings",
      description := "All metrics in normal, healthy ranges",
      category := ScenarioCategory.episode, durationMinutes := 5,
      applicableConditions := ["diabetes", "asthma", "both"],
      generateEvents := unmodeledRoutine },
    { id := "healthy_school_day", name := "Healthy School Day",
      description := "Typical healthy day with school, meals, and activities",
      category := ScenarioCategory.fullDay, durationMinutes := 30,
      applicableConditions := ["diabetes", "asthma", "both"],
      generateEvents := unmodeledRoutine },
    { id := "sick_day", name := "Sick Day",
      description := "Day when child is unwell with variable health metrics",
      category := ScenarioCategory.fullDay, durationMinutes := 25,
      applicableConditions := ["diabetes", "asthma", "both"],
      generateEvents := unmodeledRoutine },
    { id := "active_play_day", name := "Active Play Day",
      description := "Very active day with lots of physical play and exercise",
      category := ScenarioCategory.fullDay, durationMinutes := 25,
      applicableConditions := ["diabetes", "asthma", "both"],
      generateEvents := unmodeledRoutine },
    { id := "stressful_test_day", name := "Stressful Test Day",
      description := "School day with a test causing stress and mood changes",
      category := ScenarioCategory.fullDay, durationMinutes := 20,
      applicableConditions := ["diabetes", "asthma", "both"],
      generateEvents := unmodeledRoutine } ]

/-- `scenarios.get_scenario`: dict lookup that raises
`ValueError("Unknown scenario: ...")` for an id that is not registered.  It
is a pure lookup with no side effects. -/
def getScenario (scenarioId : String) : Except String ScenarioDefinition :=
  match SCENARIOS.find? (fun s => s.id == scenarioId) with
  | some s => Except.ok s
  | none => Except.error ("Unknown scenario: " ++ scenarioId)

/-- The default event count in `scenarios.run_scenario`: 5 for episode
scenarios, 12 for full-day scenarios, when `num_events` is `None`. -/
def resolveNumEvents (category : ScenarioCategory) : Option ℤ → ℤ
  | some n => n
  | none =>
    match category with
    | ScenarioCategory.episode => 5
    | ScenarioCategory.fullDay => 12

/-- `scenarios.run_scenario`: look the scenario up (propagating the
`UnknownScenario` error), resolve the event count, and yield the events the
registered routine produces. -/
def runScenarioGen (scenarioId : String) (profile : ChildProfile) (numEvents : Option ℤ)
    (d : ℕ → ℚ) : Except String (List ScenarioEvent) :=
  match getScenario scenarioId with
  | Except.error e => Except.error e
  | Except.ok scn =>
      Except.ok (scn.generateEvents profile (resolveNumEvents scn.category numEvents) d)

/-- `MedicalDataSimulator.run_scenario`: `get_scenario` runs first, so an
unknown id raises before any event is produced, any statistics counter is
touched or any history line is written; on success each yielded event bumps
`total_events`, is tallied by its authored safety status, and is appended to
the history file (the returned event list doubles as the persisted record
sequence). -/
def simRunScenario (scenarioId : String) (profile : ChildProfile) (numEvents : Option ℤ)
    (d : ℕ → ℚ) (stats : Stats) : Except String (Stats × List ScenarioEvent) :=
  match getScenario scenarioId with
  | Except.error e => Except.error e
  | Except.ok _ =>
    match runScenarioGen scenarioId profile numEvents d with
    | Except.error e => Except.error e
    | Except.ok events =>
        Except.ok
          (events.foldl
            (fun st e => tallySafety { st with totalEvents := st.totalEvents + 1 }
              (some e.safetyStatus))
            stats,
          events)

/-- A concrete activity-level event (the event shape
`generate_activity_event` produces), used to evaluate the classifier
fallback on an event that matches no channel rule and no urgency rule. -/
def sampleActivityEvent : HealthEvent :=
  { eventType := "activity_level"
    value := 0.5
    unit := "normalized_score"
    urgency := "low"
    safetyStatus := none
    llmReasoning := none
    trend := some "stable"
    anomalyScore := some 0.1
    correlationTags := []
    healthScore := some 77 }

/-- A concrete draw stream realizing one actual run of the hypoglycemia
episode with five events: initial drop 0.7 (from uniform(0.5, 1.0)),
critical glucose draws 3.5 and 3.4 (from uniform(3.2, 3.8)), mood draws 0.3
and 0.25 (from uniform(0.2, 0.4)), recovery draw 5 (from uniform(4.5, 5.5)).
Every slot lies inside the range of the `random.uniform` call that consumes
it. -/
def hypoWitnessDraws : ℕ → ℚ
  | 0 => 0.7
  | 1 => 3.5
  | 2 => 0.3
  | 3 => 3.4
  | 4 => 0.25
  | _ => 5

section Lemmas

/-- The clamp never goes below its lower bound. -/
theorem le_clampQ (lo hi x : ℚ) : lo ≤ clampQ lo hi x := le_max_left _ _

/-- The clamp never exceeds its upper bound (when the bounds are ordered). -/
theorem clampQ_le (lo hi x : ℚ) (h : lo ≤ hi) : clampQ lo hi x ≤ hi :=
  max_le h (min_le_left _ _)

/-- A capped append never exceeds the capacity. -/
theorem appendCapped_length_le {α : Type} (cap : ℕ) (x : α) (l : List α) :
    (appendCapped cap x l).length ≤ cap := by
  simp only [appendCapped, List.length_drop, List.length_append, List.length_cons,
    List.length_nil]
  omega

/-- Rounding to the nearest integer is monotone on `ℚ`. -/
theorem roundQMono {a b : ℚ} (h : a ≤ b) : round a ≤ round b := by
  rw [round_eq, round_eq]
  exact Int.floor_le_floor (by linarith)

/-- Rounding to two decimals keeps a value of [3.2, 3.8] inside [3.2, 3.8]. -/
theorem round2_mem_32_38 {q : ℚ} (h1 : 3.2 ≤ q) (h2 : q ≤ 3.8) :
    3.2 ≤ round2 q ∧ round2 q ≤ 3.8 := by
  have lo : (320 : ℤ) ≤ round (q * 100) := by
    have h := roundQMono (a := (320 : ℚ)) (b := q * 100) (by linarith)
    simpa using h
  have hi : round (q * 100) ≤ (380 : ℤ) := by
    have h := roundQMono (a := q * 100) (b := (380 : ℚ)) (by linarith)
    simpa using h
  have lo2 : ((320 : ℤ) : ℚ) ≤ ((round (q * 100) : ℤ) : ℚ) := by exact_mod_cast lo
  have hi2 : ((round (q * 100) : ℤ) : ℚ) ≤ ((380 : ℤ) : ℚ) := by exact_mod_cast hi
  constructor
  · rw [round2]
    push_cast at lo2 ⊢
    linarith
  · rw [round2]
    push_cast at hi2 ⊢
    linarith

end Lemmas

/-- C3 counterexample: at glucose 5.5, heart rate 90, mood 1.0, activity
1.0, stress 0 the health score is 77.0, not the 100.0 the claim asserts. -/
theorem healthScore_ideal_not_100 :
    calculateHealthScore 5.5 90 1 1 0 = 77 ∧ calculateHealthScore 5.5 90 1 1 0 ≠ 100 := by
  have h : calculateHealthScore 5.5 90 1 1 0 = 77 := by
    norm_num [calculateHealthScore, round1, round_eq]
  exact ⟨h, by rw [h]; norm_num⟩

/-- C3 (amended): `_calculate_health_score` at the all-ideal inputs equals
the documented sequential blend applied stage by stage, and that value is
77.0 (the stages give 80, 68, 74.4, 76.96, rounded to one decimal), not
100.0. -/
theorem healthScore_ideal_blend (glucose heartRate mood activity stress : ℚ) :
    calculateHealthScore glucose heartRate mood activity stress
      = specSequentialBlend glucose heartRate mood activity stress
  ∧ calculateHealthScore 5.5 90 1 1 0 = 77
  ∧ specSequentialBlend 5.5 90 1 1 0 = 77 := by
  refine ⟨rfl, ?_, ?_⟩
  · norm_num [calculateHealthScore, round1, round_eq]
  · norm_num [specSequentialBlend, round1, round_eq]

/-- C4 counterexample: at hour 12 (factor 1.4), noise 0, activity 1, zero
hours since medication, five hours since the last meal, the code computes a
change of -1.12 (the factor multiplies the whole sum) while the claimed
formula (factor on the noise only) gives -0.8. -/
theorem glucoseChange_factor_counterexample :
    glucoseChangeR 12 0 1 0 5 = -1.12
  ∧ glucoseChangeClaimedR 12 0 1 0 5 = -0.8
  ∧ glucoseChangeR 12 0 1 0 5 ≠ glucoseChangeClaimedR 12 0 1 0 5 := by
  have h1 : timeOfDayFactor 12 = 1.4 := by norm_num [timeOfDayFactor]
  have hmed : medicationEffectR 0 = -0.3 := by rw [medicationEffectR]; norm_num
  have hmeal : mealEffectR 5 = 0 := by rw [mealEffectR]; norm_num
  have hfac : ((timeOfDayFactor 12 : ℚ) : ℝ) = 1.4 := by rw [h1]; norm_num
  refine ⟨?_, ?_, ?_⟩
  · rw [glucoseChangeR, hmed, hmeal, hfac]; norm_num
  · rw [glucoseChangeClaimedR, hmed, hmeal, hfac]; norm_num
  · rw [glucoseChangeR, glucoseChangeClaimedR, hmed, hmeal, hfac]; norm_num

/-- C4 (amended): the glucose change equals
`(noise + activityEffect + medicationEffect + mealEffect) * timeOfDayFactor(hour)`
(the time-of-day factor scales the whole sum, not only the noise), with the
medication effect -0.3 for under two hours since the dose and 0 afterwards,
the meal effect `1.5 * exp(-hoursSinceMeal / 2)` for under four hours since
the meal and 0 afterwards, and the updated glucose clamped to [2.5, 18.0]. -/
theorem glucoseChange_formula (hour : ℕ) (g noise activity hMed hMeal : ℝ) :
    glucoseChangeR hour noise activity hMed hMeal =
      (noise + -activity * 0.5 + (if hMed < 2 then (-0.3 : ℝ) else 0) +
        (if hMeal < 4 then 1.5 * Real.exp (-hMeal / 2) else 0)) *
        ((timeOfDayFactor hour : ℚ) : ℝ)
  ∧ glucoseUpdateR g hour noise activity hMed hMeal =
      max 2.5 (min 18 (g + glucoseChangeR hour noise activity hMed hMeal))
  ∧ 2.5 ≤ glucoseUpdateR g hour noise activity hMed hMeal
  ∧ glucoseUpdateR g hour noise activity hMed hMeal ≤ 18 := by
  refine ⟨rfl, rfl, le_max_left _ _, max_le (by norm_num) (min_le_left _ _)⟩

/-- C5 counterexample: the history [0, 0.15, 0.3] has average successive
delta 0.15, which lies in the band 0.1 <= avg <= 0.3 the claim labels
volatile, yet `_calculate_trend` returns stable. -/
theorem trend_midband_stable_counterexample :
    trendAvgDelta [0, 0.15, 0.3] = 0.15
  ∧ 0.1 ≤ |(0.15 : ℚ)| ∧ |(0.15 : ℚ)| ≤ 0.3
  ∧ calculateTrend [0, 0.15, 0.3] 0.3 = "stable"
  ∧ calculateTrend [0, 0.15, 0.3] 0.3 ≠ "volatile" := by
  have hs : calculateTrend [0, 0.15, 0.3] 0.3 = "stable" := by
    norm_num [calculateTrend, lastN, successiveDiffs, abs_of_nonneg]
  refine ⟨?_, ?_, ?_, hs, ?_⟩
  · norm_num [trendAvgDelta, lastN, successiveDiffs]
  · norm_num [abs_of_nonneg]
  · norm_num [abs_of_nonneg]
  · rw [hs]; decide

/-- C5 (amended): `_calculate_trend` returns stable for every history with
fewer than three points; otherwise, with avg the average successive delta
over the last five points, it returns stable when the absolute value of avg
is below 0.1, rising when avg exceeds 0.3, falling when avg is below -0.3,
volatile when the absolute value of avg exceeds 0.2 (without exceeding 0.3),
and stable in the remaining band 0.1 to 0.2. -/
theorem calculateTrend_classification (history : List ℚ) (current : ℚ) :
    calculateTrend history current =
      if history.length < 3 then "stable"
      else if |trendAvgDelta history| < 0.1 then "stable"
      else if trendAvgDelta history > 0.3 then "rising"
      else if trendAvgDelta history < -0.3 then "falling"
      else if |trendAvgDelta history| > 0.2 then "volatile"
      else "stable" := by
  by_cases h3 : history.length < 3
  · simp [calculateTrend, h3]
  · have hlen : ¬((lastN 5 history).length < 3) := by
      simp only [lastN, List.length_drop]
      omega
    simp [calculateTrend, trendAvgDelta, h3, hlen]

/-- C6 counterexample: for the glucose instance baseline 5.5 and range
[4, 7], the within-range branch evaluates to 0.25 at the lower boundary
while the below-range branch limit there is 0.5, so the score is not
continuous at the boundary. -/
theorem anomaly_boundary_jump_counterexample :
    anomalyWithinBranch 4 5.5 4 7 = 0.25
  ∧ anomalyBelowBranch 4 5.5 4 7 = 0.5
  ∧ calculateAnomalyScore 4 5.5 4 7 = 0.25
  ∧ anomalyWithinBranch 4 5.5 4 7 ≠ anomalyBelowBranch 4 5.5 4 7 := by
  have hw : anomalyWithinBranch 4 5.5 4 7 = 0.25 := by
    norm_num [anomalyWithinBranch, min_def, abs_of_nonpos]
  have hb : anomalyBelowBranch 4 5.5 4 7 = 0.5 := by
    norm_num [anomalyBelowBranch, min_def]
  refine ⟨hw, hb, ?_, ?_⟩
  · norm_num [calculateAnomalyScore, min_def, abs_of_nonpos]
  · rw [hw, hb]; norm_num

/-- C6 (amended): for every baseline strictly inside [lower, upper] the
score is monotonically non-decreasing as the value moves further from the
range (non-increasing in the value below lower, non-decreasing above upper),
but it is not continuous at the boundaries: at value = lower the within-range
branch gives `(baseline - lower) / (upper - lower) * 0.5`, strictly below
the 0.5 limit of the below-range branch, and symmetrically at upper. -/
theorem anomalyScore_monotone_with_boundary_jump (baseline lower upper : ℚ)
    (hl : lower < baseline) (hu : baseline < upper) :
    anomalyWithinBranch lower baseline lower upper
        = (baseline - lower) / (upper - lower) * 0.5
  ∧ anomalyWithinBranch lower baseline lower upper
        < anomalyBelowBranch lower baseline lower upper
  ∧ anomalyWithinBranch upper baseline lower upper
        < anomalyAboveBranch upper baseline lower upper
  ∧ (∀ v w : ℚ, v ≤ w → w < lower →
      calculateAnomalyScore w baseline lower upper
        ≤ calculateAnomalyScore v baseline lower upper)
  ∧ (∀ v w : ℚ, upper < v → v ≤ w →
      calculateAnomalyScore v baseline lower upper
        ≤ calculateAnomalyScore w baseline lower upper) := by
  have hul : (0 : ℚ) < upper - lower := by linarith
  have hbl : (0 : ℚ) < baseline - lower := by linarith
  have hub : (0 : ℚ) < upper - baseline := by linarith
  have habs : |lower - baseline| = baseline - lower := by
    rw [abs_of_neg (by linarith)]; ring
  have habs2 : |upper - baseline| = upper - baseline := abs_of_pos hub
  have hltL : (baseline - lower) / (upper - lower) * 0.5 < 0.5 := by
    have : (baseline - lower) / (upper - lower) < 1 :=
      (div_lt_one hul).mpr (by linarith)
    linarith
  have hltU : (upper - baseline) / (upper - lower) * 0.5 < 0.5 := by
    have : (upper - baseline) / (upper - lower) < 1 :=
      (div_lt_one hul).mpr (by linarith)
    linarith
  have hwithinL : anomalyWithinBranch lower baseline lower upper
      = (baseline - lower) / (upper - lower) * 0.5 := by
    rw [anomalyWithinBranch, habs]
    exact min_eq_left hltL.le
  have hbelowL : anomalyBelowBranch lower baseline lower upper = 0.5 := by
    rw [anomalyBelowBranch]
    rw [sub_self, zero_div, zero_mul, add_zero]
    exact min_eq_left (by norm_num)
  have hwithinU : anomalyWithinBranch upper baseline lower upper
      = (upper - baseline) / (upper - lower) * 0.5 := by
    rw [anomalyWithinBranch, habs2]
    exact min_eq_left hltU.le
  have haboveU : anomalyAboveBranch upper baseline lower upper = 0.5 := by
    rw [anomalyAboveBranch]
    rw [sub_self, zero_div, zero_mul, add_zero]
    exact min_eq_left (by norm_num)
  refine ⟨hwithinL, ?_, ?_, ?_, ?_⟩
  · rw [hwithinL, hbelowL]; exact hltL
  · rw [hwithinU, haboveU]; exact hltU
  · intro v w hvw hwl
    have hvl : v < lower := lt_of_le_of_lt hvw hwl
    have hc1 : ¬(lower ≤ w ∧ w ≤ upper) := fun hc => absurd hc.1 (not_le.mpr hwl)
    have hc2 : ¬(lower ≤ v ∧ v ≤ upper) := fun hc => absurd hc.1 (not_le.mpr hvl)
    rw [calculateAnomalyScore, if_neg hc1, if_pos hwl,
        calculateAnomalyScore, if_neg hc2, if_pos hvl]
    have key : (lower - w) / (baseline - lower) ≤ (lower - v) / (baseline - lower) := by
      rw [div_eq_mul_inv, div_eq_mul_inv]
      exact mul_le_mul_of_nonneg_right (by linarith) (inv_nonneg.mpr hbl.le)
    exact min_le_min (by linarith) le_rfl
  · intro v w huv hvw
    have huw : upper < w := lt_of_lt_of_le huv hvw
    have hc1 : ¬(lower ≤ v ∧ v ≤ upper) := fun hc => absurd hc.2 (not_le.mpr huv)
    have hc2 : ¬(lower ≤ w ∧ w ≤ upper) := fun hc => absurd hc.2 (not_le.mpr huw)
    have hn1 : ¬(v < lower) := not_lt.mpr (by linarith)
    have hn2 : ¬(w < lower) := not_lt.mpr (by linarith)
    rw [calculateAnomalyScore, if_neg hc1, if_neg hn1,
        calculateAnomalyScore, if_neg hc2, if_neg hn2]
    have key : (v - upper) / (upper - baseline) ≤ (w - upper) / (upper - baseline) := by
      rw [div_eq_mul_inv, div_eq_mul_inv]
      exact mul_le_mul_of_nonneg_right (by linarith) (inv_nonneg.mpr hub.le)
    exact min_le_min (by linarith) le_rfl

/-- C6 witness: the amended statement instantiated at the glucose range
baseline 5.5, lower 4, upper 7, and one concrete pair of out-of-range
values. -/
theorem anomalyScore_monotone_witness :
    (4 : ℚ) < 5.5 ∧ (5.5 : ℚ) < 7
  ∧ anomalyWithinBranch 4 5.5 4 7 < anomalyBelowBranch 4 5.5 4 7
  ∧ calculateAnomalyScore 3.5 5.5 4 7 ≤ calculateAnomalyScore 3 5.5 4 7 :=
  ⟨by norm_num, by norm_num,
    (anomalyScore_monotone_with_boundary_jump 5.5 4 7 (by norm_num) (by norm_num)).2.1,
    (anomalyScore_monotone_with_boundary_jump 5.5 4 7 (by norm_num)
      (by norm_num)).2.2.2.1 3 3.5 (by norm_num) (by norm_num)⟩

/-- C2: `analyze_with_llm` is a total function that returns the rule-based
fallback result on every failure path (missing API key, raised exception or
timeout, non-200 response regardless of body, and a 200 response whose body
is unparseable or lacks a valid status); the fallback returns SAFE with the
reasoning string Event within normal parameters whenever no channel rule and
no urgency rule matches. -/
theorem analyzeWithLlm_fallback (event fbEvent : HealthEvent) (code : ℕ)
    (content : LlmContent) (r : LlmCallResult) (st : SafetyStatus)
    (reasoning : Option String) (hcode : code ≠ 200)
    (htype : fbEvent.eventType ≠ "glucose_drop" ∧ fbEvent.eventType ≠ "glucose_spike" ∧
      fbEvent.eventType ≠ "heart_rate_elevated" ∧ fbEvent.eventType ≠ "mood_indicator")
    (hurg : fbEvent.urgency ≠ "critical" ∧ fbEvent.urgency ≠ "high") :
    analyzeWithLlm false r event = ruleBasedAnalysis event
  ∧ analyzeWithLlm true LlmCallResult.exception event = ruleBasedAnalysis event
  ∧ analyzeWithLlm true (LlmCallResult.response code content) event
      = ruleBasedAnalysis event
  ∧ analyzeWithLlm true (LlmCallResult.response 200 LlmContent.unparseable) event
      = ruleBasedAnalysis event
  ∧ analyzeWithLlm true (LlmCallResult.response 200 LlmContent.missingOrInvalidStatus) event
      = ruleBasedAnalysis event
  ∧ analyzeWithLlm true (LlmCallResult.response code (LlmContent.valid st reasoning)) event
      = ruleBasedAnalysis event
  ∧ ruleBasedAnalysis fbEvent = (SafetyStatus.SAFE, "Event within normal parameters") := by
  obtain ⟨ht1, ht2, ht3, ht4⟩ := htype
  obtain ⟨hu1, hu2⟩ := hurg
  refine ⟨rfl, rfl, ?_, rfl, rfl, ?_, ?_⟩
  · simp [analyzeWithLlm, hcode]
  · simp [analyzeWithLlm, hcode]
  · simp [ruleBasedAnalysis, ht1, ht2, ht3, ht4, hu1, hu2]

/-- C2 witness: the fallback path evaluated on a concrete activity event and
a concrete 404 response. -/
theorem analyzeWithLlm_fallback_witness :
    (404 : ℕ) ≠ 200
  ∧ analyzeWithLlm true (LlmCallResult.response 404 LlmContent.unparseable) sampleActivityEvent
      = ruleBasedAnalysis sampleActivityEvent
  ∧ ruleBasedAnalysis sampleActivityEvent
      = (SafetyStatus.SAFE, "Event within normal parameters") := by
  have h := analyzeWithLlm_fallback sampleActivityEvent sampleActivityEvent 404
    LlmContent.unparseable LlmCallResult.exception SafetyStatus.SAFE none
    (by decide) (by refine ⟨?_, ?_, ?_, ?_⟩ <;> decide) (by refine ⟨?_, ?_⟩ <;> decide)
  exact ⟨by decide, h.2.2.1, h.2.2.2.2.2.2⟩

set_option maxHeartbeats 1600000 in
/-- Every single generator call preserves the clamp-range and
history-capacity invariant. -/
theorem stateInvariant_step (i : StepInput) (s : SimState) (h : stateInvariant s) :
    stateInvariant (applyGenerator i s) := by
  obtain ⟨hg1, hg2, hh1, hh2, hm1, hm2, ha1, ha2, ho1, ho2, hr1, hr2, hrr1, hrr2,
    hl1, hl2, hl3⟩ := h
  cases i with
  | glucose inp =>
    simp only [stateInvariant, applyGenerator, generateEvent, generateGlucoseEvent]
    exact ⟨le_clampQ _ _ _, clampQ_le _ _ _ (by norm_num), hh1, hh2, hm1, hm2, ha1, ha2,
      ho1, ho2, hr1, hr2, hrr1, hrr2, appendCapped_length_le _ _ _, hl2, hl3⟩
  | heartRate change =>
    simp only [stateInvariant, applyGenerator, generateEvent, generateHeartRateEvent]
    exact ⟨hg1, hg2, le_clampQ _ _ _, clampQ_le _ _ _ (by norm_num), hm1, hm2, ha1, ha2,
      ho1, ho2, hr1, hr2, hrr1, hrr2, hl1, hl2, hl3⟩
  | mood noise =>
    simp only [stateInvariant, applyGenerator, generateEvent, generateMoodEvent]
    exact ⟨hg1, hg2, hh1, hh2, le_clampQ _ _ _, clampQ_le _ _ _ (by norm_num), ha1, ha2,
      ho1, ho2, hr1, hr2, hrr1, hrr2, hl1, hl2, hl3⟩
  | medicationDue hrs =>
    simp only [stateInvariant, applyGenerator, generateEvent, generateMedicationEvent]
    exact ⟨hg1, hg2, hh1, hh2, hm1, hm2, ha1, ha2, ho1, ho2, hr1, hr2, hrr1, hrr2,
      hl1, hl2, hl3⟩
  | asthmaRisk a b c =>
    simp only [stateInvariant, applyGenerator, generateEvent, generateAsthmaRiskEvent]
    exact ⟨hg1, hg2, hh1, hh2, hm1, hm2, ha1, ha2, ho1, ho2, le_clampQ _ _ _,
      clampQ_le _ _ _ (by norm_num), le_clampQ _ _ _, clampQ_le _ _ _ (by norm_num),
      hl1, hl2, hl3⟩
  | oxygenSaturation n =>
    simp only [stateInvariant, applyGenerator, generateEvent, generateOxygenSaturationEvent]
    exact ⟨hg1, hg2, hh1, hh2, hm1, hm2, ha1, ha2, le_clampQ _ _ _,
      clampQ_le _ _ _ (by norm_num), hr1, hr2, hrr1, hrr2, hl1, hl2, hl3⟩
  | activity hour c sd wd =>
    simp only [stateInvariant, applyGenerator, generateEvent, generateActivityEvent]
    refine ⟨?_, ?_, hh1, hh2, hm1, hm2, ?_, ?_, ho1, ho2, hr1, hr2, hrr1, hrr2,
      hl1, hl2, hl3⟩
    · split_ifs <;> first | exact hg1 | linarith
    · split_ifs <;> first | exact hg2 | linarith
    · split_ifs <;> first | exact le_clampQ _ _ _ | linarith
    · split_ifs <;> first | exact clampQ_le _ _ _ (by norm_num) | linarith

/-- C1: starting from the freshly initialized simulator, after every
sequence of calls to the six mutating event generators (plus the
state-neutral medication reminder) every current value lies inside its
documented clamp range - glucose in [2.5, 18], heart rate in [60, 140],
mood in [0, 1], activity in [0, 1], SpO2 in [92, 100], asthma risk in
[0, 1], respiratory rate in [18, 35] - and the rolling glucose, heart-rate
and event histories never exceed their capacities of 20, 20 and 50 (the
capped append drops the oldest entries on overflow).  This covers the
cross-channel mutation in `generate_activity_event`, whose unclamped
glucose decrement fires only above 5.0 and therefore cannot leave the
range. -/
theorem generator_state_invariant (steps : List StepInput) :
    stateInvariant (runGenerators steps initialSimState) := by
  have hrun : ∀ (l : List StepInput), ∀ (s : SimState), stateInvariant s →
      stateInvariant (runGenerators l s) := by
    intro l
    induction l with
    | nil => intro s hs; exact hs
    | cons i rest ih => intro s hs; exact ih _ (stateInvariant_step i s hs)
  refine hrun steps initialSimState ?_
  refine ⟨by norm_num [initialSimState], by norm_num [initialSimState],
    by norm_num [initialSimState], by norm_num [initialSimState],
    by norm_num [initialSimState], by norm_num [initialSimState],
    by norm_num [initialSimState], by norm_num [initialSimState],
    by norm_num [initialSimState], by norm_num [initialSimState],
    by norm_num [initialSimState], by norm_num [initialSimState],
    by norm_num [initialSimState], by norm_num [initialSimState],
    by simp [initialSimState], by simp [initialSimState], by simp [initialSimState]⟩

/-- No generator touches the statistics counters. -/
theorem generateEvent_stats (i : StepInput) (s : SimState) :
    ((generateEvent i s).1).stats = s.stats := by
  cases i <;> rfl

/-- Every generator returns its event with `safety_status` still unset. -/
theorem generateEvent_safetyStatus (i : StepInput) (s : SimState) :
    ((generateEvent i s).2).safetyStatus = none := by
  cases i <;> rfl

/-- A safety tally adds exactly one to the combined danger, monitor and
safe counters and leaves the total unchanged. -/
theorem tallySafety_counts (stats : Stats) (status : Option String) :
    (tallySafety stats status).totalEvents = stats.totalEvents
  ∧ (tallySafety stats status).dangerEvents + (tallySafety stats status).monitorEvents
      + (tallySafety stats status).safeEvents
    = stats.dangerEvents + stats.monitorEvents + stats.safeEvents + 1 := by
  unfold tallySafety
  split_ifs <;> exact ⟨rfl, by dsimp only <;> omega⟩

/-- The anomaly bump changes none of the four safety counters. -/
theorem bumpAnomalies_counts (score : Option ℚ) (stats : Stats) :
    (bumpAnomalies score stats).totalEvents = stats.totalEvents
  ∧ (bumpAnomalies score stats).dangerEvents = stats.dangerEvents
  ∧ (bumpAnomalies score stats).monitorEvents = stats.monitorEvents
  ∧ (bumpAnomalies score stats).safeEvents = stats.safeEvents := by
  cases score with
  | none => exact ⟨rfl, rfl, rfl, rfl⟩
  | some a =>
    simp only [bumpAnomalies]
    split_ifs <;> exact ⟨rfl, rfl, rfl, rfl⟩

/-- One pipeline call bumps the total by exactly one and the combined
danger, monitor and safe counters by exactly two. -/
theorem generateAndAnalyzeEvent_stats (p : PipelineInput) (s : SimState) :
    ((generateAndAnalyzeEvent p s).1).stats.totalEvents = s.stats.totalEvents + 1
  ∧ ((generateAndAnalyzeEvent p s).1).stats.dangerEvents
      + ((generateAndAnalyzeEvent p s).1).stats.monitorEvents
      + ((generateAndAnalyzeEvent p s).1).stats.safeEvents
    = s.stats.dangerEvents + s.stats.monitorEvents + s.stats.safeEvents + 2 := by
  have henv : (updateEnvironment p.pollenSample p.airNoise s).stats = s.stats := rfl
  set s0 := updateEnvironment p.pollenSample p.airNoise s with hs0
  have hst := generateEvent_stats p.step s0
  have hnone := generateEvent_safetyStatus p.step s0
  set se := generateEvent p.step s0 with hse
  set stats1 : Stats := { se.1.stats with totalEvents := se.1.stats.totalEvents + 1 }
    with hstats1
  have h1t : stats1.totalEvents = s.stats.totalEvents + 1 := by
    rw [hstats1, hst, henv]
  have h1c : stats1.dangerEvents + stats1.monitorEvents + stats1.safeEvents
      = s.stats.dangerEvents + s.stats.monitorEvents + s.stats.safeEvents := by
    rw [hstats1]
    dsimp only
    rw [hst, henv]
  have h2 := tallySafety_counts stats1 se.2.safetyStatus
  have h3 := bumpAnomalies_counts se.2.anomalyScore (tallySafety stats1 se.2.safetyStatus)
  set stats3 := bumpAnomalies se.2.anomalyScore (tallySafety stats1 se.2.safetyStatus)
    with hstats3
  have h4 := tallySafety_counts stats3
    (some ((analyzeWithLlm p.hasApiKey p.llmResult se.2).1).toStr)
  have hgoal : (generateAndAnalyzeEvent p s).1.stats
      = tallySafety stats3 (some ((analyzeWithLlm p.hasApiKey p.llmResult se.2).1).toStr) := by
    rfl
  rw [hgoal]
  constructor
  · rw [h4.1, h3.1, h2.1, h1t]
  · rw [h4.2, h3.2.1, h3.2.2.1, h3.2.2.2, h2.2, h1c]

/-- C9: each `generate_and_analyze_event` call increments `total_events` by
exactly one but the combined danger + monitor + safe counters by exactly
two, because `generate_random_event` already tallies the event (necessarily
into `safe_events`, its `safety_status` still being unset) before
classification and the pipeline tallies it a second time afterwards; hence
after any run from the fresh simulator, danger + monitor + safe equals
twice `total_events`, which equals the number of calls. -/
theorem stats_double_count (steps : List PipelineInput) :
    (∀ (p : PipelineInput) (s : SimState),
        ((generateAndAnalyzeEvent p s).1).stats.totalEvents = s.stats.totalEvents + 1
      ∧ ((generateAndAnalyzeEvent p s).1).stats.dangerEvents
          + ((generateAndAnalyzeEvent p s).1).stats.monitorEvents
          + ((generateAndAnalyzeEvent p s).1).stats.safeEvents
        = s.stats.dangerEvents + s.stats.monitorEvents + s.stats.safeEvents + 2)
  ∧ (∀ (i : StepInput) (s : SimState), ((generateRandomEvent i s).2).safetyStatus = none)
  ∧ (runPipeline steps initialSimState).stats.totalEvents = steps.length
  ∧ (runPipeline steps initialSimState).stats.dangerEvents
      + (runPipeline steps initialSimState).stats.monitorEvents
      + (runPipeline steps initialSimState).stats.safeEvents = 2 * steps.length := by
  have key : ∀ (l : List PipelineInput), ∀ (s : SimState),
      (runPipeline l s).stats.totalEvents = s.stats.totalEvents + l.length
    ∧ (runPipeline l s).stats.dangerEvents + (runPipeline l s).stats.monitorEvents
        + (runPipeline l s).stats.safeEvents
      = s.stats.dangerEvents + s.stats.monitorEvents + s.stats.safeEvents + 2 * l.length := by
    intro l
    induction l with
    | nil => intro s; exact ⟨by simp [runPipeline], by simp [runPipeline]⟩
    | cons p rest ih =>
      intro s
      have hstep := generateAndAnalyzeEvent_stats p s
      have hih := ih ((generateAndAnalyzeEvent p s).1)
      have hred : runPipeline (p :: rest) s
          = runPipeline rest ((generateAndAnalyzeEvent p s).1) := rfl
      constructor
      · rw [hred, hih.1, hstep.1]
        simp only [List.length_cons]
        omega
      · rw [hred, hih.2, hstep.2]
        simp only [List.length_cons]
        omega
  have h := key steps initialSimState
  refine ⟨generateAndAnalyzeEvent_stats, ?_, ?_, ?_⟩
  · intro i s
    exact generateEvent_safetyStatus i s
  · rw [h.1]
    simp [initialSimState]
  · rw [h.2]
    simp [initialSimState]

/-- C7: requesting any scenario id that matches no registry entry fails
with the `Unknown scenario` error; `get_scenario` is a pure lookup, and
`MedicalDataSimulator.run_scenario` performs it before producing any event,
so the call errors with no statistics tally and no history append. -/
theorem getScenario_unknown_no_side_effects (scenarioId : String)
    (h : ∀ scn ∈ SCENARIOS, scn.id ≠ scenarioId) :
    getScenario scenarioId = Except.error ("Unknown scenario: " ++ scenarioId)
  ∧ ∀ (profile : ChildProfile) (numEvents : Option ℤ) (d : ℕ → ℚ) (stats : Stats),
      simRunScenario scenarioId profile numEvents d stats
        = Except.error ("Unknown scenario: " ++ scenarioId) := by
  have hfind : SCENARIOS.find? (fun s => s.id == scenarioId) = none := by
    rw [List.find?_eq_none]
    intro x hx
    simpa using h x hx
  have hg : getScenario scenarioId = Except.error ("Unknown scenario: " ++ scenarioId) := by
    simp only [getScenario, hfind]
  refine ⟨hg, ?_⟩
  intro profile numEvents d stats
  simp [simRunScenario, hg]

/-- C7 witness: the id `not_a_real_id` matches no registry entry, and the
call fails with the error and no success payload. -/
theorem getScenario_unknown_no_side_effects_witness :
    getScenario "not_a_real_id" = Except.error "Unknown scenario: not_a_real_id"
  ∧ simRunScenario "not_a_real_id" defaultProfile none (fun _ => 0) initialSimState.stats
      = Except.error "Unknown scenario: not_a_real_id" := by
  have hmem : ∀ scn ∈ SCENARIOS, scn.id ≠ "not_a_real_id" := by
    intro scn hscn
    simp only [SCENARIOS, List.mem_cons, List.not_mem_nil, or_false] at hscn
    rcases hscn with rfl | rfl | rfl | rfl | rfl | rfl | rfl | rfl | rfl <;> decide
  have h := getScenario_unknown_no_side_effects "not_a_real_id" hmem
  exact ⟨h.1, h.2 defaultProfile none (fun _ => 0) initialSimState.stats⟩

/-- C8: with baseline glucose 5.5 and five events, every glucose event in
the critical phase of the hypoglycemia episode carries a value in
[3.2, 3.8] (the uniform draw range survives the two-decimal rounding) with
safety status DANGER, and the final recovery event is SAFE with trend
rising.  The hypothesis bounds exactly the two critical-phase glucose draws
`d 1` and `d 3` (loop indices `i < 2` for `num_events = 5`), the ranges the
code's `random.uniform(3.2, 3.8)` calls guarantee; the other draws (initial
drop, moods, recovery) are unconstrained, so every real run satisfies it. -/
theorem hypoglycemia_critical_events (d : ℕ → ℚ)
    (hd : ∀ i : ℕ, i < 2 → 3.2 ≤ d (1 + 2 * i) ∧ d (1 + 2 * i) ≤ 3.8) :
    (∀ e ∈ generateHypoglycemiaEpisode defaultProfile 5 d,
        ("phase", MetaValue.str "critical") ∈ e.metadata → e.eventType = "glucose_drop" →
          3.2 ≤ e.value ∧ e.value ≤ 3.8 ∧ e.safetyStatus = "DANGER")
  ∧ (generateHypoglycemiaEpisode defaultProfile 5 d).getLast?.map
      (fun e => (e.safetyStatus, e.trend)) = some ("SAFE", "rising") := by
  have hevs : generateHypoglycemiaEpisode defaultProfile 5 d =
      [hypoInitialDropEvent (5.5 - d 0),
       hypoCriticalGlucoseEvent (d 1) 0, hypoMoodEvent (d 2),
       hypoCriticalGlucoseEvent (d 3) 1, hypoMoodEvent (d 4),
       hypoRecoveryEvent (d 5)] := rfl
  constructor
  · intro e he hphase htype
    rw [hevs] at he
    simp only [List.mem_cons, List.not_mem_nil, or_false] at he
    rcases he with rfl | rfl | rfl | rfl | rfl | rfl
    · exfalso
      revert hphase
      simp [hypoInitialDropEvent, createEvent]
    · have hb : 3.2 ≤ d 1 ∧ d 1 ≤ 3.8 := hd 0 (by norm_num)
      have hr := round2_mem_32_38 hb.1 hb.2
      exact ⟨hr.1, hr.2, rfl⟩
    · exfalso
      revert htype
      simp [hypoMoodEvent, createEvent]
    · have hb : 3.2 ≤ d 3 ∧ d 3 ≤ 3.8 := hd 1 (by norm_num)
      have hr := round2_mem_32_38 hb.1 hb.2
      exact ⟨hr.1, hr.2, rfl⟩
    · exfalso
      revert htype
      simp [hypoMoodEvent, createEvent]
    · exfalso
      revert hphase
      simp [hypoRecoveryEvent, createEvent]
  · rw [hevs]
    rfl

/-- C8 witness: the scenario evaluated on `hypoWitnessDraws`, a stream in
which every draw lies inside the range of the `random.uniform` call that
consumes it, so it represents a run the program can actually produce. -/
theorem hypoglycemia_critical_events_witness :
    ((3.2 : ℚ) ≤ hypoWitnessDraws 1 ∧ hypoWitnessDraws 1 ≤ 3.8)
  ∧ (generateHypoglycemiaEpisode defaultProfile 5 hypoWitnessDraws).getLast?.map
      (fun e => (e.safetyStatus, e.trend)) = some ("SAFE", "rising") := by
  have hd : ∀ i : ℕ, i < 2 →
      3.2 ≤ hypoWitnessDraws (1 + 2 * i) ∧ hypoWitnessDraws (1 + 2 * i) ≤ 3.8 := by
    intro i hi
    have h2 : i = 0 ∨ i = 1 := by omega
    rcases h2 with rfl | rfl
    · have hv : hypoWitnessDraws (1 + 2 * 0) = 3.5 := rfl
      rw [hv]
      norm_num
    · have hv : hypoWitnessDraws (1 + 2 * 1) = 3.4 := rfl
      rw [hv]
      norm_num
  exact ⟨hd 0 (by norm_num), (hypoglycemia_critical_events hypoWitnessDraws hd).2⟩

/-- Phase 2 of the hypoglycemia episode yields two events per loop
iteration. -/
theorem hypoCriticalPhase_length (d : ℕ → ℚ) (k : ℕ) :
    (hypoCriticalPhase d k).length = 2 * k := by
  induction k with
  | zero => rfl
  | succ n ih =>
    simp only [hypoCriticalPhase, List.length_append, List.length_cons, List.length_nil, ih]
    omega

/-- C10: the hypoglycemia episode yields `2 * (num_events - 3) + 2` events
(so 6 for the default 5, and just the 2 framing events whenever
`num_events < 3`, since `range` of a non-positive count is empty), and
`run_scenario` defaults the count to 5 for episode scenarios and 12 for
full-day scenarios, passing the resolved default to the routine. -/
theorem hypoglycemia_event_count (profile : ChildProfile) (n : ℤ) (d : ℕ → ℚ) :
    (generateHypoglycemiaEpisode profile n d).length = 2 * (n - 3).toNat + 2
  ∧ (generateHypoglycemiaEpisode profile 5 d).length = 6
  ∧ resolveNumEvents ScenarioCategory.episode none = 5
  ∧ resolveNumEvents ScenarioCategory.fullDay none = 12
  ∧ runScenarioGen "hypoglycemia_episode" profile none d
      = Except.ok (generateHypoglycemiaEpisode profile 5 d) := by
  have hlen : ∀ m : ℤ, (generateHypoglycemiaEpisode profile m d).length
      = 2 * (m - 3).toNat + 2 := by
    intro m
    simp only [generateHypoglycemiaEpisode, List.length_cons, List.length_append,
      List.length_nil, hypoCriticalPhase_length]
  refine ⟨hlen n, ?_, rfl, rfl, rfl⟩
  rw [hlen 5]
  rfl

end PlayProtect
